import Mathlib

/-!
Verification of the `endpoints` request-handler module
(`src/modules/request-handler/index.js`) against its specification.

The JavaScript source is embedded shallowly:

* JS strings, optional values and plain objects become `String`, `Option`
  and structures / association lists.
* Promise chains (`.then` / `.catch`) become explicit `Except JsError`
  sequencing; a synchronous `throw` and a rejected promise are both an
  `Except.error`.
* Calls to the external persistence adapter are recorded in an explicit
  trace (`List (AdapterCall M)`) so that "operation X is never invoked"
  is directly statable.
* The helper modules under `lib/` (`throw_if_model`, `throw_if_no_model`,
  `verify_accept`, `verify_content_type`, `verify_data_object`,
  `split_string_props`) are not part of the given sources; they are
  modelled from the specification and marked as such.
* `_.cloneDeep` aliasing behaviour (spec §4.2: no cross-request mutation
  of the configuration) is analysed with a small explicit heap model
  (`Heap`, `queryS`) in which JS objects are addresses.
-/

namespace Endpoints

/-- A JavaScript error value: `name` (for example `TypeError`), an optional
HTTP status tag attached by the `kapow` library, and a message. -/
structure JsError where
  name : String
  status : Option Nat
  message : String
deriving DecidableEq, Repr

/-- Splits a character list at every occurrence of the separator, JS
`String.prototype.split` style: the empty list yields one empty group. -/
def splitChars (sep : Char) : List Char → List (List Char)
  | [] => [[]]
  | c :: cs =>
    let rest := splitChars sep cs
    if c = sep then [] :: rest
    else
      match rest with
      | [] => [[c]]
      | g :: gs => (c :: g) :: gs

/-- JS `s.split(sep)` for a one-character separator, written with structural
recursion so that concrete instances evaluate. -/
def jsSplit (s : String) (sep : Char) : List String :=
  (splitChars sep s.data).map String.mk

/-- `true` when the first list is an initial segment of the second. -/
def leadsWith : List Char → List Char → Bool
  | [], _ => true
  | _ :: _, [] => false
  | p :: ps, c :: cs => p = c && leadsWith ps cs

/-- `true` when `pat` occurs inside `cs`. -/
def containsChars (pat : List Char) : List Char → Bool
  | [] => leadsWith pat []
  | c :: cs => leadsWith pat (c :: cs) || containsChars pat cs

/-- JS `s.indexOf(pat) !== -1`: `pat` occurs as a substring of `s`. -/
def containsSub (s pat : String) : Bool :=
  containsChars pat.data s.data

/-- JS `String.prototype.toLowerCase` on the ASCII range. -/
def jsToLower (s : String) : String :=
  String.mk (s.data.map Char.toLower)

/-- JS truthiness of an optional string (`!!x`): `undefined` and the empty
string are falsy, every other string is truthy. -/
def truthy : Option String → Bool
  | some s => !s.isEmpty
  | none => false

/-- JS `x ? ... : ...` on an optional string, normalised: a falsy value
(absent or empty) becomes `none`. -/
def jsTruthyStr : Option String → Option String
  | some s => if s.isEmpty then none else some s
  | none => none

/-- A value stored under a key of a `filter`/`fields` mapping: either a plain
string (as written by `query.filter.id = id`) or a list of strings (as
produced by `splitStringProps`). -/
inductive FVal where
  | str (s : String)
  | list (vs : List String)
deriving DecidableEq, Repr

/-- A plain JS object used as a string-keyed mapping. -/
abbrev PropObj := List (String × FVal)

/-- JS property assignment `o[k] = v`: overwrite the existing binding for
`k`, or append a new one. -/
def setProp (k : String) (v : FVal) : PropObj → PropObj
  | [] => [(k, v)]
  | (k', v') :: rest => if k' = k then (k, v) :: rest else (k', v') :: setProp k v rest

/-- The `request.params` object: optional `id`, `relation`, `related`
path parameters. -/
structure Params where
  id : Option String
  relation : Option String
  related : Option String
deriving DecidableEq, Repr

/-- The raw query string fields consumed by `RequestHandler.prototype.query`. -/
structure QueryString where
  «include» : Option String
  filter : Option String
  fields : Option String
  sort : Option String
deriving DecidableEq, Repr

/-- A JSON:API `data` envelope member. The handler itself only inspects its
`id` property (`create`) and passes the rest through opaquely. -/
structure Data where
  id : Option String
  type : Option String
  attributes : List (String × String)
deriving DecidableEq, Repr

/-- A request body, optionally carrying a `data` envelope. -/
structure Body where
  data : Option Data
deriving DecidableEq, Repr

/-- An incoming request as consumed by the handler. -/
structure Request where
  method : String
  headers : List (String × String)
  params : Params
  query : QueryString
  body : Option Body
deriving DecidableEq, Repr

/-- The query descriptor built by `RequestHandler.prototype.query` and passed
to the adapter. -/
structure Query where
  «include» : Option (List String)
  filter : Option PropObj
  fields : Option PropObj
  sort : Option (List String)
deriving DecidableEq, Repr

def COLLECTION_MODE : String := "collection"
def SINGLE_MODE : String := "single"
def RELATION_MODE : String := "relation"
def RELATED_MODE : String := "related"

/-- Result of `RequestHandler.prototype.mode`: a mode string, or the
defensive `Kapow(400, ...)` indeterminate-mode error object. -/
inductive ModeResult where
  | mode (m : String)
  | indeterminate (status : Nat) (message : String)
deriving DecidableEq, Repr

/-- `RequestHandler.prototype.mode`: classifies the request from the
presence of the `id`, `relation` and `related` path parameters. -/
def RequestHandler.mode (request : Request) : ModeResult :=
  let hasIdParam := truthy request.params.id
  let hasRelationParam := truthy request.params.relation
  let hasRelatedParam := truthy request.params.related
  if !hasIdParam then
    .mode COLLECTION_MODE
  else if !hasRelationParam && !hasRelatedParam then
    .mode SINGLE_MODE
  else if hasRelationParam then
    .mode RELATION_MODE
  else if hasRelatedParam then
    .mode RELATED_MODE
  else
    .indeterminate 400 "Unable to determine mode based on `request.params` keys."

/-- The JSON:API media type checked by the header validators. -/
def JSONAPI_MEDIA_TYPE : String := "application/vnd.api+json"

/-- The slice of the handler a validator can consult (the JS code passes the
whole handler instance; validators use its configuration-derived members). -/
structure ValidatorCtx where
  schema : List (String × String)
  method : String
  typeName : String
deriving DecidableEq

/-- A validator: inspects the request (and the handler context) and returns
an error, or nothing on success. -/
abbrev Validator := Request → ValidatorCtx → Option JsError

/-- Modelled from the spec: `lib/verify_accept` is not under `src/`. Spec
§4.7 says validation always runs an Accept-header check first, producing a
protocol-tagged error when the JSON:API media type is not accepted. -/
def verifyAccept : Validator := fun request _ =>
  match request.headers.lookup "accept" with
  | some v =>
    if containsSub v JSONAPI_MEDIA_TYPE then none
    else some { name := "KapowError", status := some 406, message := "Not Acceptable" }
  | none => some { name := "KapowError", status := some 406, message := "Not Acceptable" }

/-- Modelled from the spec: `lib/verify_content_type` is not under `src/`.
Spec §4.7 says a Content-Type check runs when the body carries a `data`
envelope (JSON:API requires a specific media type). -/
def verifyContentType : Validator := fun request _ =>
  match request.headers.lookup "content-type" with
  | some v =>
    if containsSub v JSONAPI_MEDIA_TYPE then none
    else some { name := "KapowError", status := some 415, message := "Unsupported Media Type" }
  | none => some { name := "KapowError", status := some 415, message := "Unsupported Media Type" }

/-- Modelled from the spec: `lib/verify_data_object` is not under `src/`.
Spec §4.7 says a data-object-shape check runs when the body carries a `data`
envelope (the envelope structure must be a valid resource object, which
carries a `type` member). -/
def verifyDataObject : Validator := fun request _ =>
  match request.body.bind Body.data with
  | some d =>
    if d.type.isSome then none
    else some { name := "KapowError", status := some 400, message := "Data object must have a type member" }
  | none => some { name := "KapowError", status := some 400, message := "Request body must carry a data object" }

/-- The per-resource configuration a `RequestHandler` is constructed with. -/
structure Config where
  «include» : Option (List String)
  filter : Option PropObj
  fields : Option PropObj
  sort : Option (List String)
  schema : List (String × String)
  validators : List Validator
  method : String

/-- The payload handed to the adapter's `update`: either the raw
`request.body.data`, or the relationship-update envelope
`\x7b type, links: \x7b [relation]: data \x7d \x7d` built when a `relation`
path parameter is present. -/
inductive UpdatePayload where
  | raw (d : Option Data)
  | links (type : String) (relation : String) (d : Option Data)
deriving DecidableEq, Repr

/-- A call made to the external persistence adapter, recorded in a trace. -/
inductive AdapterCall (M : Type) where
  | byId (id : Option String) (relationName : Option String)
  | create (method : String) (data : Option Data)
  | update (model : M) (method : String) (data : UpdatePayload)
  | read (query : Query) (mode : ModeResult)
  | related (query : Query) (relationName : Option String) (model : M)
  | destroy (model : M) (method : String)
deriving DecidableEq

/-- The external persistence adapter (spec §6), as a record of operations.
Each operation returns a settled promise outcome: `Except.error` is a
rejection. -/
structure Adapter (M : Type) where
  typeName : String
  byId : Option String → Option String → Except JsError (Option M)
  create : String → Option Data → Except JsError M
  update : M → String → UpdatePayload → Except JsError M
  read : Query → ModeResult → Except JsError (List M)
  related : Query → Option String → M → Except JsError (List M)
  destroy : M → String → Except JsError Unit

/-- A request handler instance: per-resource configuration plus an adapter. -/
structure RequestHandler (M : Type) where
  config : Config
  adapter : Adapter M

/-- The context handed to validators (the JS code passes `this`). -/
def RequestHandler.ctx {M : Type} (h : RequestHandler M) : ValidatorCtx :=
  { schema := h.config.schema, method := h.config.method, typeName := h.adapter.typeName }

/-- The `for (var validate in validators) { err = ...; if (err) break; }`
loop of `RequestHandler.prototype.validate`: the error of the first failing
validator, or nothing when all pass. -/
def runValidators : List Validator → Request → ValidatorCtx → Option JsError
  | [], _, _ => none
  | v :: vs, request, c =>
    match v request c with
    | some err => some err
    | none => runValidators vs request c

/-- `RequestHandler.prototype.validate`: builds the validator list —
`verifyAccept`, then (when `request.body && request.body.data`)
`verifyContentType` and `verifyDataObject`, then the configured
resource-specific validators — and runs it with first-error-wins. -/
def RequestHandler.validate {M : Type} (h : RequestHandler M) (request : Request) :
    Option JsError :=
  let validators := [verifyAccept]
  let validators :=
    if (request.body.bind Body.data).isSome then
      validators ++ [verifyContentType, verifyDataObject]
    else validators
  let validators := validators ++ h.config.validators
  runValidators validators request h.ctx

/-- Modelled from the spec: `lib/split_string_props` is not under `src/`.
Spec §4.2 and the §8 example (`filter: 'title:Foo'` parses to
`title: ['Foo']`) describe parsing a raw query-string field into a mapping
from key to an ordered sequence of comma-separated values. Entries are
`key:v1,v2` pairs. -/
def splitStringProps (s : String) : PropObj :=
  (jsSplit s ';').map fun entry =>
    match jsSplit entry ':' with
    | [] => ("", FVal.list [])
    | [key] => (key, FVal.list [""])
    | key :: v :: _ => (key, FVal.list (jsSplit v ','))

/-- `RequestHandler.prototype.query`: builds the query descriptor from the
raw query string, falling back to the (deep-cloned) configuration defaults.
This is the value-level rendering; the aliasing introduced by `_.cloneDeep`
is modelled separately by `queryS`. -/
def RequestHandler.query {M : Type} (h : RequestHandler M) (request : Request) : Query :=
  let config := h.config
  let query := request.query
  { «include» :=
      match jsTruthyStr query.«include» with
      | some s => some (jsSplit s ',')
      | none => config.«include»
    filter :=
      match jsTruthyStr query.filter with
      | some s => some (splitStringProps s)
      | none => config.filter
    fields :=
      match jsTruthyStr query.fields with
      | some s => some (splitStringProps s)
      | none => config.fields
    sort :=
      match jsTruthyStr query.sort with
      | some s => some (jsSplit s ',')
      | none => config.sort }

/-- Modelled from the spec: `lib/throw_if_model` is not under `src/`. Spec
§4.4 says a found resource under a client-supplied id fails with a conflict
error (409) before creation is attempted. -/
def throwIfModel {M : Type} : Option M → Except JsError Unit
  | some _ =>
    .error { name := "KapowError", status := some 409,
             message := "Model with this ID already exists" }
  | none => .ok ()

/-- Modelled from the spec: `lib/throw_if_no_model` is not under `src/`.
Spec §4.3/§4.5 say a missing resource fails with a `404 Not Found`-tagged
error; a present model passes through. -/
def throwIfNoModel {M : Type} : Option M → Except JsError M
  | some model => .ok model
  | none =>
    .error { name := "KapowError", status := some 404,
             message := "Unable to locate model" }

/-- The `TypeError` raised by a JS property access on `undefined`. -/
def typeError (message : String) : JsError :=
  { name := "TypeError", status := none, message := message }

/-- `RequestHandler.prototype.create`. Reads `request.body.data`; when the
candidate carries a truthy client-supplied id, first looks it up via
`adapter.byId`, failing on a hit (`throwIfModel`) before `adapter.create`
is ever reached; otherwise creates directly. Returns the adapter-call trace
together with the outcome. -/
def RequestHandler.create {M : Type} (h : RequestHandler M) (request : Request) :
    List (AdapterCall M) × Except JsError M :=
  let adapter := h.adapter
  let method := h.config.method
  match request.body with
  | none => ([], .error (typeError "Cannot read property data of undefined"))
  | some body =>
    let data := body.data
    if truthy (data.bind Data.id) then
      match adapter.byId (data.bind Data.id) none with
      | .error e => ([.byId (data.bind Data.id) none], .error e)
      | .ok m =>
        match throwIfModel m with
        | .error e => ([.byId (data.bind Data.id) none], .error e)
        | .ok _ =>
          ([.byId (data.bind Data.id) none, .create method data],
           adapter.create method data)
    else
      ([.create method data], adapter.create method data)

/-- `RequestHandler.prototype.read`. Dispatches on the resolved mode:
`related` chains `byId → throwIfNoModel → adapter.related`; `relation`
throws `Error('not implemented')`; otherwise a truthy `id` path parameter is
assigned onto `query.filter.id` (a `TypeError` when `query.filter` is
`undefined`) and `adapter.read(query, mode)` is called. -/
def RequestHandler.read {M : Type} (h : RequestHandler M) (request : Request) :
    List (AdapterCall M) × Except JsError (List M) :=
  let adapter := h.adapter
  let query := h.query request
  let mode := RequestHandler.mode request
  let params := request.params
  let id := params.id
  if mode = ModeResult.mode RELATED_MODE then
    let related := params.related
    match adapter.byId id related with
    | .error e => ([.byId id related], .error e)
    | .ok m =>
      match throwIfNoModel m with
      | .error e => ([.byId id related], .error e)
      | .ok model =>
        ([.byId id related, .related query related model],
         adapter.related query related model)
  else if mode = ModeResult.mode RELATION_MODE then
    ([], .error { name := "Error", status := none, message := "not implemented" })
  else
    if truthy id then
      match query.filter with
      | none => ([], .error (typeError "Cannot set property id of undefined"))
      | some f =>
        let query := { query with filter := some (setProp "id" (FVal.str (id.getD "")) f) }
        ([.read query mode], adapter.read query mode)
    else
      ([.read query mode], adapter.read query mode)

/-- The `.catch` clause of `RequestHandler.prototype.update`: an error whose
lower-cased message contains `'null'` is re-tagged (`Kapow.wrap(e, 409)`)
before being rethrown; every other error is rethrown as is. -/
def update.catchNull : JsError → JsError
  | e =>
    if containsSub (jsToLower e.message) "null" then { e with status := some 409 }
    else e

/-- `RequestHandler.prototype.update`. Builds the (possibly rewritten)
payload, chains `byId → throwIfNoModel → adapter.update`, and applies the
`'null'`-message 409 re-tagging catch clause to any rejection. -/
def RequestHandler.update {M : Type} (h : RequestHandler M) (request : Request) :
    List (AdapterCall M) × Except JsError M :=
  let adapter := h.adapter
  let method := h.config.method
  let id := request.params.id
  let relation := request.params.relation
  match request.body with
  | none => ([], .error (typeError "Cannot read property data of undefined"))
  | some body =>
    let data : UpdatePayload :=
      if truthy relation then
        .links adapter.typeName (relation.getD "") body.data
      else
        .raw body.data
    let step : List (AdapterCall M) × Except JsError M :=
      match adapter.byId id none with
      | .error e => ([.byId id none], .error e)
      | .ok m =>
        match throwIfNoModel m with
        | .error e => ([.byId id none], .error e)
        | .ok model =>
          ([.byId id none, .update model method data], adapter.update model method data)
    (step.1,
     match step.2 with
     | .ok v => .ok v
     | .error e => .error (update.catchNull e))

/-- `RequestHandler.prototype.destroy`. Looks the model up; deletes it when
found, resolves with nothing when not. -/
def RequestHandler.destroy {M : Type} (h : RequestHandler M) (request : Request) :
    List (AdapterCall M) × Except JsError (Option Unit) :=
  let adapter := h.adapter
  let method := h.config.method
  let id := request.params.id
  match adapter.byId id none with
  | .error e => ([.byId id none], .error e)
  | .ok m =>
    match m with
    | some model =>
      ([.byId id none, .destroy model method],
       (adapter.destroy model method).map some)
    | none => ([.byId id none], .ok none)

/-! Heap model of `RequestHandler.prototype.query`.

The configuration's `filter` and `fields` members are mutable JS objects.
To reason about `_.cloneDeep` (spec §4.2: repeated calls never observe or
produce cross-request mutation of the configuration) the objects are placed
in an explicit heap: an object is an address (its index), allocation appends
at the end, and `cloneDeep` copies the pointed-to objects to fresh
addresses. The arrays held under `include`/`sort` are never mutated by the
handler, so they are kept as immutable values. -/

/-- A heap of JS objects: the address of an object is its index. -/
abbrev Heap := List PropObj

/-- Allocation of a fresh object: append at the end of the heap. -/
def Heap.alloc (h : Heap) (o : PropObj) : Heap × Nat :=
  (h ++ [o], h.length)

/-- The `_.cloneDeep` step for one optional object member: a missing member
stays missing, a present object is copied to a fresh address. -/
def cloneOptRef (h : Heap) : Option Nat → Heap × Option Nat
  | none => (h, none)
  | some a =>
    let (h', a') := h.alloc ((h[a]?).getD [])
    (h', some a')

/-- The configuration as a heap-allocated object graph: `filter` and
`fields` are references to heap objects. -/
structure ConfigRefs where
  «include» : Option (List String)
  filter : Option Nat
  fields : Option Nat
  sort : Option (List String)
deriving DecidableEq, Repr

/-- The query descriptor with its `filter`/`fields` objects by reference. -/
structure QueryRefs where
  «include» : Option (List String)
  filter : Option Nat
  fields : Option Nat
  sort : Option (List String)
deriving DecidableEq, Repr

/-- Validity of the configuration's references in a heap. -/
def ConfigRefs.wf (heap : Heap) (cfg : ConfigRefs) : Prop :=
  (∀ a, cfg.filter = some a → a < heap.length) ∧
  (∀ a, cfg.fields = some a → a < heap.length)

/-- Heap-level rendering of `RequestHandler.prototype.query`: first
`_.cloneDeep(this.config)` (copying the `filter` and `fields` objects to
fresh addresses), then the descriptor is built — a supplied query-string
field allocates a fresh parsed object, an absent one falls back to the
clone's object. -/
def queryS (heap : Heap) (cfg : ConfigRefs) (request : Request) : Heap × QueryRefs :=
  let (h1, cloneFilter) := cloneOptRef heap cfg.filter
  let (h2, cloneFields) := cloneOptRef h1 cfg.fields
  let (h3, filterRef) :=
    match jsTruthyStr request.query.filter with
    | some s => let (h', a) := h2.alloc (splitStringProps s); (h', some a)
    | none => (h2, cloneFilter)
  let (h4, fieldsRef) :=
    match jsTruthyStr request.query.fields with
    | some s => let (h', a) := h3.alloc (splitStringProps s); (h', some a)
    | none => (h3, cloneFields)
  (h4,
   { «include» :=
       match jsTruthyStr request.query.«include» with
       | some s => some (jsSplit s ',')
       | none => cfg.«include»
     filter := filterRef
     fields := fieldsRef
     sort :=
       match jsTruthyStr request.query.sort with
       | some s => some (jsSplit s ',')
       | none => cfg.sort })

/-- Reads a query descriptor's referenced objects out of the heap, giving
the value-level `Query`. -/
def derefQuery (heap : Heap) (q : QueryRefs) : Query :=
  { «include» := q.«include»
    filter := q.filter.map fun a => (heap[a]?).getD []
    fields := q.fields.map fun a => (heap[a]?).getD []
    sort := q.sort }

/-- Reads the configuration's referenced objects out of the heap. -/
def derefConfig (heap : Heap) (cfg : ConfigRefs) : Query :=
  { «include» := cfg.«include»
    filter := cfg.filter.map fun a => (heap[a]?).getD []
    fields := cfg.fields.map fun a => (heap[a]?).getD []
    sort := cfg.sort }

/-! Concrete fixtures used by witness theorems. -/

/-- A sample adapter over `Nat` models: id `"1"` exists (model `1`),
everything else does not. -/
def testAdapter : Adapter Nat :=
  { typeName := "chapters"
    byId := fun i _ => .ok (if i = some "1" then some 1 else none)
    create := fun _ _ => .ok 7
    update := fun m _ _ => .ok m
    read := fun _ _ => .ok []
    related := fun _ _ m => .ok [m]
    destroy := fun _ _ => .ok () }

/-- A sample configuration with a defined (empty) default filter mapping. -/
def testConfig : Config :=
  { «include» := none, filter := some [], fields := none, sort := none
    schema := [], validators := [], method := "create" }

/-- A sample handler built from `testConfig` and `testAdapter`. -/
def testHandler : RequestHandler Nat :=
  { config := testConfig, adapter := testAdapter }

/-- A request addressing a single resource: `params.id = '5'`, empty query
string, no body. -/
def singleRequest : Request :=
  { method := "GET", headers := [("accept", "application/vnd.api+json")]
    params := { id := some "5", relation := none, related := none }
    query := { «include» := none, filter := none, fields := none, sort := none }
    body := none }

/-- C1: `mode` classifies every combination of the `id`, `relation` and
`related` path parameters by presence, first match winning — no `id` gives
`collection`; `id` with neither `relation` nor `related` gives `single`;
`id` with `relation` gives `relation`; `id` with `related` (and no
`relation`) gives `related` — and the defensive 400 indeterminate-mode
branch is never reached, so no combination is left unclassified. -/
theorem mode_classification (r : Request) :
    (RequestHandler.mode r = .mode COLLECTION_MODE ↔ truthy r.params.id = false) ∧
    (RequestHandler.mode r = .mode SINGLE_MODE ↔
      truthy r.params.id = true ∧ truthy r.params.relation = false ∧
        truthy r.params.related = false) ∧
    (RequestHandler.mode r = .mode RELATION_MODE ↔
      truthy r.params.id = true ∧ truthy r.params.relation = true) ∧
    (RequestHandler.mode r = .mode RELATED_MODE ↔
      truthy r.params.id = true ∧ truthy r.params.relation = false ∧
        truthy r.params.related = true) ∧
    (∀ s m, RequestHandler.mode r ≠ .indeterminate s m) := by
  cases hI : truthy r.params.id <;> cases hR : truthy r.params.relation <;>
    cases hD : truthy r.params.related <;>
      simp [RequestHandler.mode, hI, hR, hD, COLLECTION_MODE, SINGLE_MODE,
        RELATION_MODE, RELATED_MODE]

/-- Witness for C1: the single-resource request is classified `single`. -/
theorem mode_classification_witness :
    RequestHandler.mode singleRequest = .mode SINGLE_MODE :=
  (mode_classification singleRequest).2.1.mpr (by decide)

/-- The validator list `validate` executes, in declaration order:
`verifyAccept` first, the two body checks exactly when `request.body.data`
is present, then the configured resource-specific validators. -/
def RequestHandler.pipeline {M : Type} (h : RequestHandler M) (request : Request) :
    List Validator :=
  [verifyAccept] ++
    (if (request.body.bind Body.data).isSome then [verifyContentType, verifyDataObject]
     else []) ++
    h.config.validators

/-- `runValidators` returns nothing when every validator passes. -/
theorem runValidators_all_pass {vs : List Validator} {r : Request} {c : ValidatorCtx}
    (hall : ∀ v ∈ vs, v r c = none) : runValidators vs r c = none := by
  induction vs with
  | nil => rfl
  | cons v vs ih =>
    have hv := hall v (List.mem_cons_self v vs)
    simp [runValidators, hv]
    exact ih fun u hu => hall u (List.mem_cons_of_mem v hu)

/-- `runValidators` returns the first failure, whatever comes after it. -/
theorem runValidators_first_failure {vs₁ vs₂ : List Validator} {v : Validator}
    {r : Request} {c : ValidatorCtx} {e : JsError}
    (hpass : ∀ u ∈ vs₁, u r c = none) (hfail : v r c = some e) :
    runValidators (vs₁ ++ v :: vs₂) r c = some e := by
  induction vs₁ with
  | nil => simp [runValidators, hfail]
  | cons u vs₁ ih =>
    have hu := hpass u (List.mem_cons_self u vs₁)
    simp only [List.cons_append, runValidators, hu]
    exact ih fun w hw => hpass w (List.mem_cons_of_mem u hw)

/-- C2: `validate` runs exactly the pipeline — Accept check first, the
Content-Type and data-object checks exactly when `request.body.data` is
present, then the configured validators in declaration order — returning
the error of the first failing validator independently of every validator
after it, and nothing when all pass. -/
theorem validate_pipeline {M : Type} (h : RequestHandler M) (r : Request) :
    h.validate r = runValidators (h.pipeline r) r h.ctx ∧
    (∀ e, verifyAccept r h.ctx = some e → h.validate r = some e) ∧
    ((∀ v ∈ h.pipeline r, v r h.ctx = none) → h.validate r = none) ∧
    (∀ vs₁ v vs₂ e, h.pipeline r = vs₁ ++ v :: vs₂ →
      (∀ u ∈ vs₁, u r h.ctx = none) → v r h.ctx = some e →
      h.validate r = some e) := by
  have hpipe : h.validate r = runValidators (h.pipeline r) r h.ctx := by
    by_cases hd : (r.body.bind Body.data).isSome <;>
      simp [RequestHandler.validate, RequestHandler.pipeline, hd]
  refine ⟨hpipe, ?_, ?_, ?_⟩
  · intro e he
    rw [hpipe]
    have : h.pipeline r = [] ++ verifyAccept ::
        ((if (r.body.bind Body.data).isSome then [verifyContentType, verifyDataObject]
          else []) ++ h.config.validators) := by
      simp [RequestHandler.pipeline]
    rw [this]
    exact runValidators_first_failure (by simp) he
  · intro hall
    rw [hpipe]
    exact runValidators_all_pass hall
  · intro vs₁ v vs₂ e hsplit hpass hfail
    rw [hpipe, hsplit]
    exact runValidators_first_failure hpass hfail

/-- A resource-specific validator that always fails. -/
def valFail : Validator := fun _ _ =>
  some { name := "KapowError", status := some 400, message := "custom check failed" }

/-- A resource-specific validator that always passes. -/
def valPass : Validator := fun _ _ => none

/-- A handler configured with the validators `[valFail, valPass]`. -/
def pipelineHandler : RequestHandler Nat :=
  { config := { testConfig with validators := [valFail, valPass] }
    adapter := testAdapter }

/-- Witness for C2: on a bodyless request with an acceptable Accept header,
the pipeline is `[verifyAccept, valFail, valPass]`; `valFail` is the first
failure, so its error is returned. -/
theorem validate_pipeline_witness :
    pipelineHandler.validate singleRequest =
      some { name := "KapowError", status := some 400, message := "custom check failed" } :=
  (validate_pipeline pipelineHandler singleRequest).2.2.2 [verifyAccept] valFail [valPass]
    { name := "KapowError", status := some 400, message := "custom check failed" }
    rfl
    (by
      intro u hu
      have := List.mem_singleton.mp hu
      subst this
      decide)
    (by decide)

/-- C3: when `body.data` carries a truthy client-supplied id, `create`
first looks the id up through `adapter.byId`; a hit fails with the 409
conflict error with only the lookup in the adapter trace (`adapter.create`
is never invoked); a miss proceeds to `adapter.create` with the method
label and the data; without a client-supplied id, `create` calls
`adapter.create` directly with no prior lookup. -/
theorem create_conflict_check {M : Type} (h : RequestHandler M) (r : Request) (b : Body)
    (hb : r.body = some b) :
    (∀ m, truthy (b.data.bind Data.id) = true →
      h.adapter.byId (b.data.bind Data.id) none = .ok (some m) →
      h.create r = ([.byId (b.data.bind Data.id) none],
        .error { name := "KapowError", status := some 409,
                 message := "Model with this ID already exists" })) ∧
    (truthy (b.data.bind Data.id) = true →
      h.adapter.byId (b.data.bind Data.id) none = .ok none →
      h.create r = ([.byId (b.data.bind Data.id) none, .create h.config.method b.data],
        h.adapter.create h.config.method b.data)) ∧
    (truthy (b.data.bind Data.id) = false →
      h.create r = ([.create h.config.method b.data],
        h.adapter.create h.config.method b.data)) := by
  refine ⟨?_, ?_, ?_⟩
  · intro m ht hby
    simp [RequestHandler.create, hb, ht, hby, throwIfModel]
  · intro ht hby
    simp [RequestHandler.create, hb, ht, hby, throwIfModel]
  · intro ht
    simp [RequestHandler.create, hb, ht]

/-- The body of a create request carrying the client-supplied id `"1"`. -/
def conflictBody : Body :=
  { data := some { id := some "1", type := some "chapters", attributes := [] } }

/-- A create request whose `body.data.id` collides with the stored model. -/
def conflictRequest : Request :=
  { method := "POST"
    headers := [("accept", "application/vnd.api+json"),
                ("content-type", "application/vnd.api+json")]
    params := { id := none, relation := none, related := none }
    query := { «include» := none, filter := none, fields := none, sort := none }
    body := some conflictBody }

/-- Witness for C3: creating with the already-stored id `"1"` returns the
409 conflict and the trace holds only the lookup. -/
theorem create_conflict_check_witness :
    testHandler.create conflictRequest = ([.byId (some "1") none],
      .error { name := "KapowError", status := some 409,
               message := "Model with this ID already exists" }) :=
  (create_conflict_check testHandler conflictRequest conflictBody rfl).1 1 (by decide) rfl

/-- C4: `update` on an id the adapter does not know fails with the
404-tagged error and the adapter's `update` is absent from the trace; on an
existing id with a truthy `relation` path parameter, the adapter's `update`
receives the envelope `UpdatePayload.links typeName relation body.data` in
place of the raw data, together with the found model and the method label. -/
theorem update_envelope {M : Type} (h : RequestHandler M) (r : Request) (b : Body)
    (hb : r.body = some b) :
    (h.adapter.byId r.params.id none = .ok none →
      h.update r = ([.byId r.params.id none],
        .error { name := "KapowError", status := some 404,
                 message := "Unable to locate model" })) ∧
    (∀ model rel, r.params.relation = some rel → rel.isEmpty = false →
      h.adapter.byId r.params.id none = .ok (some model) →
      (h.update r).1 = [.byId r.params.id none,
        .update model h.config.method (.links h.adapter.typeName rel b.data)]) := by
  constructor
  · intro hby
    simp +decide [RequestHandler.update, hb, hby, throwIfNoModel, update.catchNull]
  · intro model rel hrel hne hby
    simp [RequestHandler.update, hb, hby, throwIfNoModel, truthy, hrel, hne]

/-- An update request addressing the relation `book` of resource `"1"`. -/
def relationUpdateRequest : Request :=
  { method := "PATCH"
    headers := [("accept", "application/vnd.api+json"),
                ("content-type", "application/vnd.api+json")]
    params := { id := some "1", relation := some "book", related := none }
    query := { «include» := none, filter := none, fields := none, sort := none }
    body := some conflictBody }

/-- Witness for C4: updating relation `book` of the existing model `1`
hands the adapter the `links` envelope wrapping the original data. -/
theorem update_envelope_witness :
    (testHandler.update relationUpdateRequest).1 =
      [.byId (some "1") none,
       .update 1 "create" (.links "chapters" "book" conflictBody.data)] :=
  (update_envelope testHandler relationUpdateRequest conflictBody rfl).2 1 "book"
    rfl (by decide) rfl

/-- C5: any rejection out of the update chain — the lookup or the adapter's
`update` — reaches the caller re-tagged with status 409 exactly when its
message contains `'null'` case-insensitively, and otherwise unchanged. -/
theorem update_null_retag {M : Type} (h : RequestHandler M) (r : Request) (b : Body)
    (hb : r.body = some b) (e : JsError) :
    (h.adapter.byId r.params.id none = .error e →
      (h.update r).2 = .error
        (if containsSub (jsToLower e.message) "null" then { e with status := some 409 }
         else e)) ∧
    (∀ model, h.adapter.byId r.params.id none = .ok (some model) →
      h.adapter.update model h.config.method
          (if truthy r.params.relation
           then .links h.adapter.typeName (r.params.relation.getD "") b.data
           else .raw b.data) = .error e →
      (h.update r).2 = .error
        (if containsSub (jsToLower e.message) "null" then { e with status := some 409 }
         else e)) := by
  constructor
  · intro hby
    simp [RequestHandler.update, hb, hby, update.catchNull]
  · intro model hby hupd
    by_cases ht : truthy r.params.relation <;>
      simp [RequestHandler.update, hb, hby, throwIfNoModel, ht] at hupd ⊢ <;>
        simp [hupd, update.catchNull]

/-- An adapter whose `update` rejects with a NOT-NULL constraint message. -/
def nullRejectAdapter : Adapter Nat :=
  { testAdapter with
    update := fun _ _ _ => .error
      { name := "Error", status := none, message := "chapters.title may not be NULL" } }

/-- A handler over the rejecting adapter. -/
def nullRejectHandler : RequestHandler Nat :=
  { config := testConfig, adapter := nullRejectAdapter }

/-- A plain update request for resource `"1"` (no relation parameter). -/
def plainUpdateRequest : Request :=
  { method := "PATCH"
    headers := [("accept", "application/vnd.api+json"),
                ("content-type", "application/vnd.api+json")]
    params := { id := some "1", relation := none, related := none }
    query := { «include» := none, filter := none, fields := none, sort := none }
    body := some conflictBody }

/-- Witness for C5: the rejection whose message contains `NULL` reaches the
caller tagged 409, message intact. -/
theorem update_null_retag_witness :
    (nullRejectHandler.update plainUpdateRequest).2 = .error
      { name := "Error", status := some 409, message := "chapters.title may not be NULL" } :=
  (update_null_retag nullRejectHandler plainUpdateRequest conflictBody rfl
      { name := "Error", status := none, message := "chapters.title may not be NULL" }).2
    1 rfl rfl

/-- C6: in `related` mode, `read` first calls `adapter.byId` with the id
and the related relation name; `ok none` fails with the 404-tagged error
with `adapter.related` absent from the trace; a found model leads to
`adapter.related` applied to the query descriptor, the relation name and
the model, whose outcome is returned. -/
theorem read_related_flow {M : Type} (h : RequestHandler M) (r : Request)
    (hmode : RequestHandler.mode r = .mode RELATED_MODE) :
    (h.adapter.byId r.params.id r.params.related = .ok none →
      h.read r = ([.byId r.params.id r.params.related],
        .error { name := "KapowError", status := some 404,
                 message := "Unable to locate model" })) ∧
    (∀ model, h.adapter.byId r.params.id r.params.related = .ok (some model) →
      h.read r = ([.byId r.params.id r.params.related,
                   .related (h.query r) r.params.related model],
        h.adapter.related (h.query r) r.params.related model)) := by
  constructor
  · intro hby
    simp [RequestHandler.read, hmode, hby, throwIfNoModel]
  · intro model hby
    simp [RequestHandler.read, hmode, hby, throwIfNoModel]

/-- A read request for the resources related to `"1"` through `book`. -/
def relatedRequest : Request :=
  { method := "GET", headers := [("accept", "application/vnd.api+json")]
    params := { id := some "1", relation := none, related := some "book" }
    query := { «include» := none, filter := none, fields := none, sort := none }
    body := none }

/-- Witness for C6: the base model `1` exists, so `adapter.related` runs on
the query descriptor and its result comes back. -/
theorem read_related_flow_witness :
    testHandler.read relatedRequest =
      ([.byId (some "1") (some "book"),
        .related { «include» := none, filter := some [], fields := none, sort := none }
          (some "book") 1],
       .ok [1]) :=
  (read_related_flow testHandler relatedRequest rfl).2 1 rfl

/-- C8: in `relation` mode, `read` fails with the plain (status-less)
`not implemented` error and the adapter trace is empty — no `byId`,
`related` or `read` call is ever made. -/
theorem read_relation_gap {M : Type} (h : RequestHandler M) (r : Request)
    (hmode : RequestHandler.mode r = .mode RELATION_MODE) :
    h.read r = ([], .error { name := "Error", status := none, message := "not implemented" }) := by
  simp [RequestHandler.read, hmode, RELATED_MODE, RELATION_MODE]

/-- A read request addressing the relation linkage `book` of `"1"`. -/
def relationReadRequest : Request :=
  { method := "GET", headers := [("accept", "application/vnd.api+json")]
    params := { id := some "1", relation := some "book", related := none }
    query := { «include» := none, filter := none, fields := none, sort := none }
    body := none }

/-- Witness for C8: the relation-linkage read fails with the internal error
and an empty adapter trace. -/
theorem read_relation_gap_witness :
    testHandler.read relationReadRequest =
      ([], .error { name := "Error", status := none, message := "not implemented" }) :=
  read_relation_gap testHandler relationReadRequest rfl

/-- A handler whose configuration supplies no default filter mapping. -/
def nofilterHandler : RequestHandler Nat :=
  { config := { testConfig with filter := none }, adapter := testAdapter }

/-- Counterexample for C7: the single-mode read `params.id = '5'`, empty
query string, run against a configuration with no default filter mapping,
makes no adapter call at all and throws the `TypeError` — the id is never
assigned onto `filter.id` and `adapter.read` is never invoked, against the
claim's unconditional wording. -/
theorem read_id_assignment_cex :
    RequestHandler.mode singleRequest = .mode SINGLE_MODE ∧
    truthy singleRequest.params.id = true ∧
    nofilterHandler.read singleRequest =
      ([], .error (typeError "Cannot set property id of undefined")) :=
  ⟨rfl, rfl, rfl⟩

/-- `setProp k v` leaves `k` bound to exactly `v`. -/
theorem setProp_lookup (k : String) (v : FVal) (o : PropObj) :
    (setProp k v o).lookup k = some v := by
  induction o with
  | nil => simp [setProp, List.lookup]
  | cons p rest ih =>
    by_cases hk : p.1 = k
    · simp [setProp, hk, List.lookup]
    · simp only [setProp]
      rw [if_neg hk]
      have hbeq : (k == p.1) = false := beq_eq_false_iff_ne.mpr (Ne.symm hk)
      simpa [List.lookup, hbeq] using ih

/-- C7 (amended): in `collection` or `single` mode, provided the descriptor
ends up with a defined filter mapping, a truthy `id` path parameter is
written onto `filter.id` — overwriting any `filter[id]` from the query
string — and `adapter.read` receives exactly that descriptor and the mode;
without a truthy id, `adapter.read` receives the untouched descriptor. -/
theorem read_id_assignment {M : Type} (h : RequestHandler M) (r : Request) (f : PropObj)
    (hmode : RequestHandler.mode r = .mode COLLECTION_MODE ∨
             RequestHandler.mode r = .mode SINGLE_MODE)
    (hf : (h.query r).filter = some f) :
    (truthy r.params.id = true →
      ((setProp "id" (FVal.str (r.params.id.getD "")) f).lookup "id" =
        some (FVal.str (r.params.id.getD "")) ∧
       h.read r =
        ([.read { h.query r with
                  filter := some (setProp "id" (FVal.str (r.params.id.getD "")) f) }
            (RequestHandler.mode r)],
         h.adapter.read
           { h.query r with
             filter := some (setProp "id" (FVal.str (r.params.id.getD "")) f) }
           (RequestHandler.mode r)))) ∧
    (truthy r.params.id = false →
      h.read r = ([.read (h.query r) (RequestHandler.mode r)],
        h.adapter.read (h.query r) (RequestHandler.mode r))) := by
  constructor
  · intro ht
    refine ⟨setProp_lookup _ _ _, ?_⟩
    rcases hmode with hm | hm <;>
      simp [RequestHandler.read, hm, ht, hf, COLLECTION_MODE, SINGLE_MODE,
        RELATED_MODE, RELATION_MODE]
  · intro ht
    rcases hmode with hm | hm <;>
      simp [RequestHandler.read, hm, ht, hf, COLLECTION_MODE, SINGLE_MODE,
        RELATED_MODE, RELATION_MODE]

/-- Witness for C7 (amended): with a configured (empty) default filter
mapping, the `{ id: '5' }` read is `single` mode and `adapter.read` gets
the descriptor with `filter.id = '5'`. -/
theorem read_id_assignment_witness :
    (setProp "id" (FVal.str "5") []).lookup "id" = some (FVal.str "5") ∧
    testHandler.read singleRequest =
      ([.read { «include» := none, filter := some [("id", FVal.str "5")],
                fields := none, sort := none } (.mode SINGLE_MODE)],
       .ok []) :=
  ((read_id_assignment testHandler singleRequest [] (Or.inr rfl) rfl).1 rfl)

/-- C10: a single-mode read whose query string supplies no filter, against
a configuration with no default filter mapping, builds a descriptor whose
`filter` member is undefined, and `read` throws the `TypeError` of the
`query.filter.id` assignment with an empty adapter trace — `adapter.read`
is never reached; with a defined filter mapping the same request does reach
`adapter.read`. -/
theorem read_missing_filter_type_error {M : Type} (h : RequestHandler M) (r : Request)
    (hmode : RequestHandler.mode r = .mode SINGLE_MODE) :
    (jsTruthyStr r.query.filter = none → h.config.filter = none →
      (h.query r).filter = none ∧
      h.read r = ([], .error (typeError "Cannot set property id of undefined"))) ∧
    (∀ f, (h.query r).filter = some f →
      h.read r =
        ([.read { h.query r with
                  filter := some (setProp "id" (FVal.str (r.params.id.getD "")) f) }
            (RequestHandler.mode r)],
         h.adapter.read
           { h.query r with
             filter := some (setProp "id" (FVal.str (r.params.id.getD "")) f) }
           (RequestHandler.mode r))) := by
  have hid : truthy r.params.id = true := by
    by_contra hfalse
    rw [Bool.not_eq_true] at hfalse
    simp [RequestHandler.mode, hfalse, COLLECTION_MODE, SINGLE_MODE] at hmode
  constructor
  · intro hqf hcf
    have hfilter : (h.query r).filter = none := by
      simp [RequestHandler.query, hqf, hcf]
    refine ⟨hfilter, ?_⟩
    simp [RequestHandler.read, hmode, hid, hfilter, SINGLE_MODE, RELATED_MODE,
      RELATION_MODE]
  · intro f hf
    simp [RequestHandler.read, hmode, hid, hf, SINGLE_MODE, RELATED_MODE,
      RELATION_MODE]

/-- Witness for C10: the `{ id: '5' }` read against the no-default-filter
configuration throws the `TypeError` before any adapter call. -/
theorem read_missing_filter_type_error_witness :
    (nofilterHandler.query singleRequest).filter = none ∧
    nofilterHandler.read singleRequest =
      ([], .error (typeError "Cannot set property id of undefined")) :=
  (read_missing_filter_type_error nofilterHandler singleRequest rfl).1 rfl rfl

/-- Appending to a heap preserves the objects at pre-existing addresses. -/
@[simp]
theorem heapLookup_append_left (l t : Heap) (a : Nat) (ha : a < l.length) :
    (l ++ t)[a]? = l[a]? := by
  rw [List.getElem?_append, if_pos ha]

/-- The object allocated at the end of a heap sits at the old length. -/
@[simp]
theorem heapLookup_fresh₀ (l : Heap) (o : PropObj) (t : Heap) :
    (l ++ o :: t)[l.length]? = some o := by
  rw [List.getElem?_append]
  simp

/-- Lookup of the second object past the old end of a heap. -/
@[simp]
theorem heapLookup_fresh₁ (l : Heap) (o₀ o₁ : PropObj) (t : Heap) :
    (l ++ o₀ :: o₁ :: t)[l.length + 1]? = some o₁ := by
  rw [List.getElem?_append]
  simp

/-- Lookup of the third object past the old end of a heap. -/
@[simp]
theorem heapLookup_fresh₂ (l : Heap) (o₀ o₁ o₂ : PropObj) (t : Heap) :
    (l ++ o₀ :: o₁ :: o₂ :: t)[l.length + 1 + 1]? = some o₂ := by
  rw [List.getElem?_append, if_neg (by omega)]
  have h2 : l.length + 1 + 1 - l.length = 2 := by omega
  simp [h2]

/-- Lookup of the fourth object past the old end of a heap. -/
@[simp]
theorem heapLookup_fresh₃ (l : Heap) (o₀ o₁ o₂ o₃ : PropObj) (t : Heap) :
    (l ++ o₀ :: o₁ :: o₂ :: o₃ :: t)[l.length + 1 + 1 + 1]? = some o₃ := by
  rw [List.getElem?_append, if_neg (by omega)]
  have h3 : l.length + 1 + 1 + 1 - l.length = 3 := by omega
  simp [h3]

/-- Total-indexing variant: appending preserves pre-existing objects. -/
@[simp]
theorem heapGet_append_left (l t : Heap) (a : Nat) (ha : a < l.length)
    (hb : a < (l ++ t).length) : (l ++ t)[a] = l[a] :=
  List.getElem_append_left ha

/-- Total-indexing variant of `heapLookup_fresh₀`. -/
@[simp]
theorem heapGet_fresh₀ (l : Heap) (o : PropObj) (t : Heap)
    (hb : l.length < (l ++ o :: t).length) : (l ++ o :: t)[l.length] = o := by
  rw [List.getElem_append_right (le_refl l.length)]
  simp

/-- Total-indexing variant of `heapLookup_fresh₁`. -/
@[simp]
theorem heapGet_fresh₁ (l : Heap) (o₀ o₁ : PropObj) (t : Heap)
    (hb : l.length + 1 < (l ++ o₀ :: o₁ :: t).length) :
    (l ++ o₀ :: o₁ :: t)[l.length + 1] = o₁ := by
  rw [List.getElem_append_right (by omega)]
  have h1 : l.length + 1 - l.length = 1 := by omega
  simp [h1]

/-- Total-indexing variant of `heapLookup_fresh₂`. -/
@[simp]
theorem heapGet_fresh₂ (l : Heap) (o₀ o₁ o₂ : PropObj) (t : Heap)
    (hb : l.length + 1 + 1 < (l ++ o₀ :: o₁ :: o₂ :: t).length) :
    (l ++ o₀ :: o₁ :: o₂ :: t)[l.length + 1 + 1] = o₂ := by
  rw [List.getElem_append_right (by omega)]
  have h2 : l.length + 1 + 1 - l.length = 2 := by omega
  simp [h2]

/-- Total-indexing variant of `heapLookup_fresh₃`. -/
@[simp]
theorem heapGet_fresh₃ (l : Heap) (o₀ o₁ o₂ o₃ : PropObj) (t : Heap)
    (hb : l.length + 1 + 1 + 1 < (l ++ o₀ :: o₁ :: o₂ :: o₃ :: t).length) :
    (l ++ o₀ :: o₁ :: o₂ :: o₃ :: t)[l.length + 1 + 1 + 1] = o₃ := by
  rw [List.getElem_append_right (by omega)]
  have h3 : l.length + 1 + 1 + 1 - l.length = 3 := by omega
  simp [h3]

/-- `queryS` only allocates: the heap after a call extends the heap before. -/
theorem queryS_extends (heap : Heap) (cfg : ConfigRefs) (r : Request) :
    ∃ t, (queryS heap cfg r).1 = heap ++ t := by
  unfold queryS cloneOptRef Heap.alloc
  rcases hf : cfg.filter with _ | a <;> rcases hd : cfg.fields with _ | b <;>
    rcases hqf : jsTruthyStr r.query.filter with _ | s <;>
    rcases hqd : jsTruthyStr r.query.fields with _ | t₂ <;>
      simp [List.append_assoc]

/-- The descriptor `queryS` builds, read back through the final heap:
query-string fields parse to fresh objects, absent ones fall back to the
configuration's (cloned) objects. -/
theorem queryS_deref (heap : Heap) (cfg : ConfigRefs) (r : Request)
    (hwf : ConfigRefs.wf heap cfg) :
    derefQuery (queryS heap cfg r).1 (queryS heap cfg r).2 =
      { «include» :=
          match jsTruthyStr r.query.«include» with
          | some s => some (jsSplit s ',')
          | none => cfg.«include»
        filter :=
          match jsTruthyStr r.query.filter with
          | some s => some (splitStringProps s)
          | none => cfg.filter.map fun a => (heap[a]?).getD []
        fields :=
          match jsTruthyStr r.query.fields with
          | some s => some (splitStringProps s)
          | none => cfg.fields.map fun a => (heap[a]?).getD []
        sort :=
          match jsTruthyStr r.query.sort with
          | some s => some (jsSplit s ',')
          | none => cfg.sort } := by
  obtain ⟨hwff, hwfd⟩ := hwf
  unfold queryS cloneOptRef Heap.alloc
  rcases hf : cfg.filter with _ | a <;> rcases hd : cfg.fields with _ | b <;>
    rcases hqf : jsTruthyStr r.query.filter with _ | s <;>
    rcases hqd : jsTruthyStr r.query.fields with _ | t₂ <;>
      simp_all [derefQuery, List.append_assoc]

/-- C9: `query` never mutates the configuration — every pre-existing heap
object, and in particular the configuration's dereferenced value, is the
same before and after the call — and two successive calls on the same
request and configuration produce equal (dereferenced) query descriptors. -/
theorem query_config_frame (heap : Heap) (cfg : ConfigRefs) (r : Request)
    (hwf : ConfigRefs.wf heap cfg) :
    derefConfig (queryS heap cfg r).1 cfg = derefConfig heap cfg ∧
    (∀ a, a < heap.length → ((queryS heap cfg r).1)[a]? = heap[a]?) ∧
    derefQuery (queryS (queryS heap cfg r).1 cfg r).1
        (queryS (queryS heap cfg r).1 cfg r).2 =
      derefQuery (queryS heap cfg r).1 (queryS heap cfg r).2 := by
  obtain ⟨t, ht⟩ := queryS_extends heap cfg r
  have hpres : ∀ a, a < heap.length → ((queryS heap cfg r).1)[a]? = heap[a]? := by
    intro a ha
    rw [ht]
    exact heapLookup_append_left _ _ _ ha
  have hwf' : ConfigRefs.wf (queryS heap cfg r).1 cfg := by
    refine ⟨fun a haeq => ?_, fun a haeq => ?_⟩ <;> rw [ht, List.length_append]
    · exact Nat.lt_of_lt_of_le (hwf.1 a haeq) (Nat.le_add_right _ _)
    · exact Nat.lt_of_lt_of_le (hwf.2 a haeq) (Nat.le_add_right _ _)
  have hfcomp : cfg.filter.map (fun a => (((queryS heap cfg r).1)[a]?).getD []) =
      cfg.filter.map fun a => (heap[a]?).getD [] := by
    rcases hf : cfg.filter with _ | a
    · rfl
    · simp [hpres a (hwf.1 a hf)]
  have hdcomp : cfg.fields.map (fun a => (((queryS heap cfg r).1)[a]?).getD []) =
      cfg.fields.map fun a => (heap[a]?).getD [] := by
    rcases hd : cfg.fields with _ | b
    · rfl
    · simp [hpres b (hwf.2 b hd)]
  refine ⟨?_, hpres, ?_⟩
  · unfold derefConfig
    rw [hfcomp, hdcomp]
  · rw [queryS_deref heap cfg r hwf, queryS_deref (queryS heap cfg r).1 cfg r hwf']
    simp only [Query.mk.injEq]
    refine ⟨trivial, ?_, ?_, trivial⟩
    · rcases hqf : jsTruthyStr r.query.filter with _ | s
      · exact hfcomp
      · rfl
    · rcases hqd : jsTruthyStr r.query.fields with _ | s
      · exact hdcomp
      · rfl

/-- A two-object heap: address 0 holds the configuration's default filter
mapping, address 1 its default fields mapping. -/
def testHeap : Heap := [[("book_id", FVal.list ["7"])], [("chapters", FVal.list ["title"])]]

/-- A heap-level configuration pointing at both objects of `testHeap`. -/
def testConfigRefs : ConfigRefs :=
  { «include» := some ["book"], filter := some 0, fields := some 1, sort := none }

/-- Witness for C9: on the concrete heap, configuration and request, the
configuration dereferences identically after the call, pre-existing
addresses are untouched, and the second call's descriptor equals the
first's. -/
theorem query_config_frame_witness :
    derefConfig (queryS testHeap testConfigRefs singleRequest).1 testConfigRefs =
        derefConfig testHeap testConfigRefs ∧
      ((queryS testHeap testConfigRefs singleRequest).1)[0]? = testHeap[0]? ∧
      derefQuery (queryS (queryS testHeap testConfigRefs singleRequest).1
            testConfigRefs singleRequest).1
          (queryS (queryS testHeap testConfigRefs singleRequest).1
            testConfigRefs singleRequest).2 =
        derefQuery (queryS testHeap testConfigRefs singleRequest).1
          (queryS testHeap testConfigRefs singleRequest).2 := by
  have h := query_config_frame testHeap testConfigRefs singleRequest
    (by refine ⟨fun a ha => ?_, fun a ha => ?_⟩ <;> simp [testConfigRefs] at ha <;>
          simp [testHeap] <;> omega)
  exact ⟨h.1, h.2.1 0 (by simp [testHeap]), h.2.2⟩

end Endpoints
